import Mathlib

/-
Verification of the voice-command interpretation and filter-reconciliation
engine of the drive-whisper-red repository.

The engine lives in src/utils/nlp.ts (lexicon tables, extractors, intent
classification, confidence scoring, filter merging) and in
src/components/VoiceSearchAssistant.tsx (the dialogue controller).

Shallow embedding conventions:
- Utterances are `List Char` (a JavaScript string is a sequence of code
  units; all inputs of interest are plain text).  `text.includes(kw)` is
  `includesSub`, `text.toLowerCase()` is `lowerList` (ASCII case folding,
  which covers every keyword in the lexicon), `text.trim()` is `trimL`
  (ASCII whitespace).
- JavaScript numbers extracted by the engine are natural numbers: every
  capture of the numeric regexes is a digit string, and `parseInt` of a
  digit string never overflows for the inputs of a car-search filter.
- The confidence score is modelled in ℚ with the exact literals 0.5, 0.1,
  0.2 of the source.
- `Partial<CarFilters>` is a structure of `Option`-valued fields; the
  fields the engine never reads or writes are represented by `models`,
  kept to witness that merging leaves unrelated fields alone.
- The regular expressions of nlp.ts are hand-compiled to matchers below.
  Every character class adjacent to a greedy repetition in those patterns
  is disjoint from what can follow it (digits / whitespace / literal
  words), so the greedy, non-backtracking matchers used here agree with
  the JavaScript regex engine on all inputs, and leftmost-match is
  implemented by `scanFor`, which tries every start position in order.
-/

namespace CarVoice

/-! ### Character and string primitives -/

def isSpaceChar (c : Char) : Bool :=
  c == ' ' || c == '\t' || c == '\n' || c == '\r'

def isDigitChar (c : Char) : Bool :=
  '0' ≤ c && c ≤ '9'

/-- ASCII lower-casing, the effect of `String.prototype.toLowerCase` on the
lexicon keywords and test utterances (all ASCII). -/
def lowerChar (c : Char) : Char :=
  if 'A' ≤ c && c ≤ 'Z' then Char.ofNat (c.toNat + 32) else c

def lowerList (l : List Char) : List Char := l.map lowerChar

/-- `String.prototype.trim`: strip whitespace from both ends. -/
def trimL (l : List Char) : List Char :=
  ((l.dropWhile isSpaceChar).reverse.dropWhile isSpaceChar).reverse

def strToChars (s : String) : List Char := s.toList

def isPrefixL : List Char → List Char → Bool
  | [], _ => true
  | _ :: _, [] => false
  | p :: ps, c :: cs => p == c && isPrefixL ps cs

/-- `haystack.includes(needle)`: substring containment, no word boundaries. -/
def includesSub : List Char → List Char → Bool
  | [], pat => pat.isEmpty
  | c :: rest, pat => isPrefixL pat (c :: rest) || includesSub rest pat

/-! ### The lexicon (KEYWORD_MAPPINGS of nlp.ts, in table-definition order) -/

def makesTable : List (String × String) :=
  [("volkswagen", "Volkswagen"), ("vw", "Volkswagen"), ("bmw", "BMW"),
   ("mercedes", "Mercedes"), ("benz", "Mercedes"), ("audi", "Audi"),
   ("toyota", "Toyota"), ("ford", "Ford"), ("porsche", "Porsche"),
   ("tesla", "Tesla"), ("lamborghini", "Lamborghini"), ("ferrari", "Ferrari")]

def vehicleTypesTable : List (String × String) :=
  [("suv", "suv"), ("sports utility vehicle", "suv"), ("off-road", "suv"),
   ("pickup", "suv"), ("saloon", "saloon"), ("sedan", "saloon"),
   ("coupe", "sports-coupe"), ("sports car", "sports-coupe"),
   ("estate", "estate"), ("wagon", "estate"), ("small car", "small-car"),
   ("hatchback", "small-car"), ("cabriolet", "cabriolet"),
   ("convertible", "cabriolet"), ("roadster", "cabriolet"),
   ("van", "van"), ("minibus", "van")]

def conditionsTable : List (String × String) :=
  [("new", "new"), ("used", "used"), ("second hand", "used"),
   ("pre-registration", "pre-registration"), ("demo", "demonstration"),
   ("demonstration", "demonstration"), ("classic", "classic"),
   ("vintage", "classic")]

def fuelTypesTable : List (String × String) :=
  [("petrol", "petrol"), ("gas", "petrol"), ("gasoline", "petrol"),
   ("diesel", "diesel"), ("electric", "electric"), ("ev", "electric"),
   ("hybrid", "hybrid"), ("plug-in hybrid", "plug-in-hybrid"),
   ("phev", "plug-in-hybrid"), ("hydrogen", "hydrogen"),
   ("natural gas", "cng"), ("cng", "cng"), ("lpg", "lpg"),
   ("ethanol", "ethanol")]

def transmissionsTable : List (String × String) :=
  [("automatic", "automatic"), ("auto", "automatic"), ("manual", "manual"),
   ("stick shift", "manual"), ("semi-automatic", "semi-automatic"),
   ("semi auto", "semi-automatic")]

def driveTypesTable : List (String × String) :=
  [("all wheel drive", "awd"), ("awd", "awd"), ("4wd", "awd"),
   ("front wheel drive", "fwd"), ("fwd", "fwd"),
   ("rear wheel drive", "rwd"), ("rwd", "rwd")]

def featuresTable : List (String × String) :=
  [("heated seats", "heatedSeats"), ("navigation", "navigationSystem"),
   ("nav", "navigationSystem"), ("gps", "navigationSystem"),
   ("sunroof", "sunroof"), ("panoramic roof", "sunroof"),
   ("apple carplay", "carPlay"), ("android auto", "carPlay"),
   ("alloy wheels", "alloyWheels"), ("led headlights", "ledHeadlights"),
   ("led lights", "ledHeadlights"), ("lane assist", "laneChangeAssist"),
   ("emergency brake", "emergencyBrakeAssist"),
   ("trailer coupling", "trailerCoupling"), ("tow bar", "trailerCoupling")]

def colorsTable : List (String × String) :=
  [("black", "Black"), ("white", "White"), ("silver", "Silver"),
   ("grey", "Grey"), ("gray", "Grey"), ("blue", "Blue"), ("red", "Red"),
   ("brown", "Brown"), ("green", "Green"), ("orange", "Orange"),
   ("yellow", "Yellow"), ("beige", "Beige"), ("gold", "Gold"),
   ("purple", "Purple")]

/-! ### Keyword extraction (extractKeywords / extractFeatures) -/

/-- First-occurrence deduplication, the effect of `[...new Set(found)]`. -/
def dedupGo : List String → List String → List String
  | [], _ => []
  | a :: as, seen => if a ∈ seen then dedupGo as seen else a :: dedupGo as (a :: seen)

def dedupFirst (l : List String) : List String := dedupGo l []

/-- extractKeywords of nlp.ts: push the canonical value of every keyword
occurring as a substring, in table order, then deduplicate. -/
def extractKeywords (text : List Char) (table : List (String × String)) : List String :=
  dedupFirst ((table.filter fun kv => includesSub text (strToChars kv.1)).map fun kv => kv.2)

/-- A canonical feature key of `features[feature] = true` in extractFeatures:
set iff some keyword row mapping to it occurs in the text. -/
def featMatch (text : List Char) (key : String) : Bool :=
  (featuresTable.filter fun kv => kv.2 == key).any fun kv => includesSub text (strToChars kv.1)

/-- The `Record<string, boolean>` of boolean features: one optional entry per
canonical key, in the insertion order of the source table. -/
structure Features where
  heatedSeats : Option Bool := none
  navigationSystem : Option Bool := none
  sunroof : Option Bool := none
  carPlay : Option Bool := none
  alloyWheels : Option Bool := none
  ledHeadlights : Option Bool := none
  laneChangeAssist : Option Bool := none
  emergencyBrakeAssist : Option Bool := none
  trailerCoupling : Option Bool := none
deriving DecidableEq

def Features.isEmpty (f : Features) : Bool :=
  f.heatedSeats.isNone && f.navigationSystem.isNone && f.sunroof.isNone &&
  f.carPlay.isNone && f.alloyWheels.isNone && f.ledHeadlights.isNone &&
  f.laneChangeAssist.isNone && f.emergencyBrakeAssist.isNone && f.trailerCoupling.isNone

/-- extractFeatures of nlp.ts: a key is present (with value `true`) exactly
when one of its keywords occurs in the text. -/
def extractFeatures (text : List Char) : Features :=
  { heatedSeats := if featMatch text "heatedSeats" then some true else none,
    navigationSystem := if featMatch text "navigationSystem" then some true else none,
    sunroof := if featMatch text "sunroof" then some true else none,
    carPlay := if featMatch text "carPlay" then some true else none,
    alloyWheels := if featMatch text "alloyWheels" then some true else none,
    ledHeadlights := if featMatch text "ledHeadlights" then some true else none,
    laneChangeAssist := if featMatch text "laneChangeAssist" then some true else none,
    emergencyBrakeAssist := if featMatch text "emergencyBrakeAssist" then some true else none,
    trailerCoupling := if featMatch text "trailerCoupling" then some true else none }

/-! ### Hand-compiled matchers for PRICE_PATTERNS / YEAR_PATTERNS / MILEAGE_PATTERNS

Each matcher tries the pattern at one start position and returns the capture
groups; `scanFor` supplies the leftmost-match semantics of `String.match`. -/

/-- Ordered alternation of literal words, as in a `(?:a|b|c)` group. -/
def matchAlts : List String → List Char → Option (List Char)
  | [], _ => none
  | a :: rest, s =>
    match (fun t => if isPrefixL (strToChars a) t then some (t.drop (strToChars a).length) else none) s with
    | some r => some r
    | none => matchAlts rest s

/-- An optional alternation group `(?:...)?`: consume it if it matches. -/
def matchOpt (alts : List String) (s : List Char) : List Char :=
  match matchAlts alts s with
  | some r => r
  | none => s

/-- `\s*` (greedy). -/
def dropSpaces (s : List Char) : List Char := s.dropWhile isSpaceChar

/-- `(?:,\d{3})*` (greedy): returns the consumed text and the rest. -/
def commaGroups : List Char → List Char × List Char
  | ',' :: a :: b :: c :: rest =>
    if isDigitChar a && isDigitChar b && isDigitChar c then
      let (more, r) := commaGroups rest
      (',' :: a :: b :: c :: more, r)
    else ([], ',' :: a :: b :: c :: rest)
  | s => ([], s)

/-- `(?:\.\d{2})?`. -/
def decimalPart : List Char → List Char × List Char
  | '.' :: a :: b :: rest =>
    if isDigitChar a && isDigitChar b then (['.', a, b], rest)
    else ([], '.' :: a :: b :: rest)
  | s => ([], s)

/-- The price capture `(\d+(?:,\d{3})*(?:\.\d{2})?)`. -/
def matchNumber (s : List Char) : Option (List Char × List Char) :=
  let ds := s.takeWhile isDigitChar
  if ds.isEmpty then none
  else
    let (cg, r2) := commaGroups (s.dropWhile isDigitChar)
    let (dp, r3) := decimalPart r2
    some (ds ++ cg ++ dp, r3)

/-- The mileage capture `(\d+(?:,\d{3})*)` (no decimal part). -/
def matchNumberNoDec (s : List Char) : Option (List Char × List Char) :=
  let ds := s.takeWhile isDigitChar
  if ds.isEmpty then none
  else
    let (cg, r2) := commaGroups (s.dropWhile isDigitChar)
    some (ds ++ cg, r2)

/-- The year capture `(\d{4})`: four consecutive digits (more may follow). -/
def matchDigits4 : List Char → Option (List Char × List Char)
  | a :: b :: c :: d :: rest =>
    if isDigitChar a && isDigitChar b && isDigitChar c && isDigitChar d then
      some ([a, b, c, d], rest)
    else none
  | _ => none

/-- Leftmost match: try the single-position matcher at every start position. -/
def scanFor {α : Type} (m : List Char → Option α) : List Char → Option α
  | [] => m []
  | s@(_ :: rest) =>
    match m s with
    | some r => some r
    | none => scanFor m rest

def currencyAlts : List String := ["€", "euros", "euro"]

def pricePat1 (s : List Char) : Option (List Char) := do
  let r1 ← matchAlts ["under", "less than", "below", "max", "maximum"] s
  let r2 := dropSpaces (matchOpt currencyAlts (dropSpaces r1))
  let (num, _) ← matchNumber r2
  pure num

def pricePat2 (s : List Char) : Option (List Char) := do
  let r1 ← matchAlts ["over", "more than", "above", "min", "minimum"] s
  let r2 := dropSpaces (matchOpt currencyAlts (dropSpaces r1))
  let (num, _) ← matchNumber r2
  pure num

def pricePat3 (s : List Char) : Option (List Char × List Char) := do
  let r1 ← matchAlts ["between", "from"] s
  let r2 := dropSpaces (matchOpt currencyAlts (dropSpaces r1))
  let (n1, r3) ← matchNumber r2
  let r4 ← matchAlts ["to", "and", "-"] (dropSpaces r3)
  let r5 := dropSpaces (matchOpt currencyAlts (dropSpaces r4))
  let (n2, _) ← matchNumber r5
  pure (n1, n2)

def pricePat4 (s : List Char) : Option (List Char) := do
  let r1 := dropSpaces (matchOpt currencyAlts s)
  let (num, _) ← matchNumber r1
  pure num

/-- The loop over PRICE_PATTERNS: the first pattern with a match wins; the
second component holds `match[2]` when the between-pattern matched. -/
def firstPriceMatch (t : List Char) : Option (List Char × Option (List Char)) :=
  match scanFor pricePat1 t with
  | some n => some (n, none)
  | none =>
    match scanFor pricePat2 t with
    | some n => some (n, none)
    | none =>
      match scanFor pricePat3 t with
      | some (a, b) => some (a, some b)
      | none =>
        match scanFor pricePat4 t with
        | some n => some (n, none)
        | none => none

def yearPat1 (s : List Char) : Option (List Char) := do
  let r1 ← matchAlts ["from", "after", "since"] s
  let (n, _) ← matchDigits4 (dropSpaces r1)
  pure n

def yearPat2 (s : List Char) : Option (List Char) := do
  let r1 ← matchAlts ["before", "until"] s
  let (n, _) ← matchDigits4 (dropSpaces r1)
  pure n

def yearPat3 (s : List Char) : Option (List Char × List Char) := do
  let r1 ← matchAlts ["between", "from"] s
  let (n1, r2) ← matchDigits4 (dropSpaces r1)
  let r3 ← matchAlts ["to", "and", "-"] (dropSpaces r2)
  let (n2, _) ← matchDigits4 (dropSpaces r3)
  pure (n1, n2)

def yearPat4 (s : List Char) : Option (List Char) := do
  let (n, _) ← matchDigits4 s
  pure n

def firstYearMatch (t : List Char) : Option (List Char × Option (List Char)) :=
  match scanFor yearPat1 t with
  | some n => some (n, none)
  | none =>
    match scanFor yearPat2 t with
    | some n => some (n, none)
    | none =>
      match scanFor yearPat3 t with
      | some (a, b) => some (a, some b)
      | none =>
        match scanFor yearPat4 t with
        | some n => some (n, none)
        | none => none

/-- Mileage patterns 1 and 2 end in `\s*(?:km|kilometers?|miles?|mi)?`, an
optional suffix that can never make the match fail, so it is not consumed. -/
def mileagePat1 (s : List Char) : Option (List Char) := do
  let r1 ← matchAlts ["under", "less than", "below"] s
  let (n, _) ← matchNumberNoDec (dropSpaces r1)
  pure n

def mileagePat2 (s : List Char) : Option (List Char) := do
  let r1 ← matchAlts ["over", "more than", "above"] s
  let (n, _) ← matchNumberNoDec (dropSpaces r1)
  pure n

/-- Mileage pattern 3 requires the unit: `(\d+(?:,\d{3})*)\s*(?:km|kilometers?|miles?|mi)`. -/
def mileagePat3 (s : List Char) : Option (List Char) := do
  let (n, r1) ← matchNumberNoDec s
  let _ ← matchAlts ["km", "kilometers", "kilometer", "miles", "mile", "mi"] (dropSpaces r1)
  pure n

def firstMileageMatch (t : List Char) : Option (List Char) :=
  match scanFor mileagePat1 t with
  | some n => some n
  | none =>
    match scanFor mileagePat2 t with
    | some n => some n
    | none => scanFor mileagePat3 t

/-! ### Number parsing and the three range extractors -/

def natFromDigits (l : List Char) : Nat :=
  l.foldl (fun n c => n * 10 + (c.toNat - '0'.toNat)) 0

/-- parseNumber of nlp.ts: strip commas, then `parseInt` (which reads the
leading digit run, stopping at a decimal point). -/
def parseNumber (l : List Char) : Nat :=
  natFromDigits ((l.filter fun c => c != ',').takeWhile isDigitChar)

/-- `parseInt` on a year capture (a four-digit string). -/
def parseIntL (l : List Char) : Nat :=
  natFromDigits (l.takeWhile isDigitChar)

structure NumRange where
  min : Option Nat := none
  max : Option Nat := none
deriving DecidableEq

/-- extractPriceRange: first matching pattern wins, then the bounding
direction is decided by re-scanning the whole utterance. -/
def extractPriceRange (text : List Char) : Option NumRange :=
  match firstPriceMatch text with
  | none => none
  | some (m1, m2) =>
    if includesSub text (strToChars "under") || includesSub text (strToChars "less than") ||
       includesSub text (strToChars "below") || includesSub text (strToChars "max") then
      some { max := some (parseNumber m1) }
    else if includesSub text (strToChars "over") || includesSub text (strToChars "more than") ||
            includesSub text (strToChars "above") || includesSub text (strToChars "min") then
      some { min := some (parseNumber m1) }
    else
      match m2 with
      | some m2v => some { min := some (parseNumber m1), max := some (parseNumber m2v) }
      | none => some { max := some (parseNumber m1) }

/-- extractYearRange: a bare year defaults to a minimum bound. -/
def extractYearRange (text : List Char) : Option NumRange :=
  match firstYearMatch text with
  | none => none
  | some (m1, m2) =>
    if includesSub text (strToChars "from") || includesSub text (strToChars "after") ||
       includesSub text (strToChars "since") then
      some { min := some (parseIntL m1) }
    else if includesSub text (strToChars "before") || includesSub text (strToChars "until") then
      some { max := some (parseIntL m1) }
    else
      match m2 with
      | some m2v => some { min := some (parseIntL m1), max := some (parseIntL m2v) }
      | none => some { min := some (parseIntL m1) }

/-- extractMileage: a bare number defaults to a maximum bound. -/
def extractMileage (text : List Char) : Option NumRange :=
  match firstMileageMatch text with
  | none => none
  | some m1 =>
    if includesSub text (strToChars "under") || includesSub text (strToChars "less than") ||
       includesSub text (strToChars "below") then
      some { max := some (parseNumber m1) }
    else if includesSub text (strToChars "over") || includesSub text (strToChars "more than") ||
            includesSub text (strToChars "above") then
      some { min := some (parseNumber m1) }
    else
      some { max := some (parseNumber m1) }

/-! ### Entities, intent and confidence (parseVoiceCommand) -/

/-- The `entities` bag built by parseVoiceCommand: a key is present exactly
when the corresponding extraction was non-empty. -/
structure Entities where
  makes : Option (List String) := none
  vehicleTypes : Option (List String) := none
  conditions : Option (List String) := none
  fuelTypes : Option (List String) := none
  transmissions : Option (List String) := none
  driveTypes : Option (List String) := none
  features : Option Features := none
  colors : Option (List String) := none
  priceRange : Option NumRange := none
  yearRange : Option NumRange := none
  mileage : Option NumRange := none
deriving DecidableEq

/-- `Object.keys(entities).length`: the number of keys present. -/
def entityCount (e : Entities) : Nat :=
  (if e.makes.isSome then 1 else 0) + (if e.vehicleTypes.isSome then 1 else 0) +
  (if e.conditions.isSome then 1 else 0) + (if e.fuelTypes.isSome then 1 else 0) +
  (if e.transmissions.isSome then 1 else 0) + (if e.driveTypes.isSome then 1 else 0) +
  (if e.features.isSome then 1 else 0) + (if e.colors.isSome then 1 else 0) +
  (if e.priceRange.isSome then 1 else 0) + (if e.yearRange.isSome then 1 else 0) +
  (if e.mileage.isSome then 1 else 0)

def hasSearchKeyword (t : List Char) : Bool :=
  includesSub t (strToChars "find") || includesSub t (strToChars "search") ||
  includesSub t (strToChars "show") || includesSub t (strToChars "looking for")

def hasCompareKeyword (t : List Char) : Bool :=
  includesSub t (strToChars "compare") || includesSub t (strToChars "comparison")

def hasDetailKeyword (t : List Char) : Bool :=
  includesSub t (strToChars "detail") || includesSub t (strToChars "more info") ||
  includesSub t (strToChars "tell me about")

def hasResetKeyword (t : List Char) : Bool :=
  includesSub t (strToChars "reset") || includesSub t (strToChars "clear") ||
  includesSub t (strToChars "start over")

def hasConfirmKeyword (t : List Char) : Bool :=
  includesSub t (strToChars "yes") || includesSub t (strToChars "correct") ||
  includesSub t (strToChars "right")

def hasDenyKeyword (t : List Char) : Bool :=
  includesSub t (strToChars "no") || includesSub t (strToChars "wrong") ||
  includesSub t (strToChars "change")

/-- determineIntent of nlp.ts: a fixed if/else cascade of substring checks,
falling back to specify_filters when any entity was extracted. -/
def determineIntent (text : List Char) (entities : Entities) : String :=
  if hasSearchKeyword text then "search_cars"
  else if hasCompareKeyword text then "compare_cars"
  else if hasDetailKeyword text then "car_details"
  else if hasResetKeyword text then "reset_filters"
  else if hasConfirmKeyword text then "confirm"
  else if hasDenyKeyword text then "deny"
  else if entityCount entities > 0 then "specify_filters"
  else "unknown"

def confidenceKeywords : List String :=
  ["find", "search", "looking for", "want", "need", "show me"]

/-- The confidence-booster loop: `confidence += 0.2; break` at the first
matching keyword, so the bonus is added at most once. -/
def boosterBonus : List String → List Char → ℚ
  | [], _ => 0
  | k :: ks, text => if includesSub text (strToChars k) then 1/5 else boosterBonus ks text

/-- calculateConfidence of nlp.ts: base 0.5, plus 0.1 per entity category,
plus the booster bonus, clamped to 1 by `Math.min`.  The source lower-cases
its argument again even though it receives normalized text. -/
def calculateConfidence (entities : Entities) (text : List Char) : ℚ :=
  min ((1 : ℚ)/2 + (entityCount entities : ℚ) * (1/10) + boosterBonus confidenceKeywords (lowerList text)) 1

structure VoiceCommand where
  intent : String
  entities : Entities
  confidence : ℚ
deriving DecidableEq

/-- parseVoiceCommand of nlp.ts. -/
def parseVoiceCommand (text : List Char) : VoiceCommand :=
  let normalizedText := trimL (lowerList text)
  let makes := extractKeywords normalizedText makesTable
  let vehicleTypes := extractKeywords normalizedText vehicleTypesTable
  let conditions := extractKeywords normalizedText conditionsTable
  let fuelTypes := extractKeywords normalizedText fuelTypesTable
  let transmissions := extractKeywords normalizedText transmissionsTable
  let driveTypes := extractKeywords normalizedText driveTypesTable
  let features := extractFeatures normalizedText
  let colors := extractKeywords normalizedText colorsTable
  let entities : Entities :=
    { makes := if makes.isEmpty then none else some makes,
      vehicleTypes := if vehicleTypes.isEmpty then none else some vehicleTypes,
      conditions := if conditions.isEmpty then none else some conditions,
      fuelTypes := if fuelTypes.isEmpty then none else some fuelTypes,
      transmissions := if transmissions.isEmpty then none else some transmissions,
      driveTypes := if driveTypes.isEmpty then none else some driveTypes,
      features := if features.isEmpty then none else some features,
      colors := if colors.isEmpty then none else some colors,
      priceRange := extractPriceRange normalizedText,
      yearRange := extractYearRange normalizedText,
      mileage := extractMileage normalizedText }
  { intent := determineIntent normalizedText entities,
    entities := entities,
    confidence := calculateConfidence entities normalizedText }

/-! ### Filter state and reconciliation (applyEntitiesToFilters) -/

/-- `Partial<CarFilters>`, restricted to the fields the engine reads or
writes, plus `models` as a representative of the many fields it never
touches (the `{...currentFilters}` spread copies them unchanged). -/
@[ext]
structure CarFilters where
  makes : Option (List String) := none
  models : Option (List String) := none
  vehicleTypes : Option (List String) := none
  conditions : Option (List String) := none
  fuelTypes : Option (List String) := none
  transmissions : Option (List String) := none
  driveTypes : Option (List String) := none
  exteriorColors : Option (List String) := none
  priceMin : Option Nat := none
  priceMax : Option Nat := none
  yearMin : Option Nat := none
  yearMax : Option Nat := none
  mileageMin : Option Nat := none
  mileageMax : Option Nat := none
  sunroof : Option Bool := none
  trailerCoupling : Option Bool := none
  heatedSeats : Option Bool := none
  navigationSystem : Option Bool := none
  carPlay : Option Bool := none
  alloyWheels : Option Bool := none
  ledHeadlights : Option Bool := none
  laneChangeAssist : Option Bool := none
  emergencyBrakeAssist : Option Bool := none
deriving DecidableEq

/-- Overwrite-if-present, the effect of `if (x !== undefined) f.y = x`. -/
def overwrite {α : Type} (newVal old : Option α) : Option α :=
  match newVal with
  | some v => some v
  | none => old

/-- One list-category block of applyEntitiesToFilters:
`f.xs = [...(f.xs || []), ...entities.xs]` when the category is present. -/
def listMerge (extracted existing : Option (List String)) : Option (List String) :=
  match extracted with
  | some xs => some (existing.getD [] ++ xs)
  | none => existing

/-- One bound of a numeric-range block: overwrite the scalar field when this
bound is present in the extracted range. -/
def boundMerge (range : Option NumRange) (sel : NumRange → Option Nat) (old : Option Nat) : Option Nat :=
  match range with
  | some r => overwrite (sel r) old
  | none => old

/-- One boolean feature flag of the features block:
`Object.entries(entities.features).forEach(([k, v]) => f[k] = v)`. -/
def featMerge (feats : Option Features) (sel : Features → Option Bool) (old : Option Bool) : Option Bool :=
  match feats with
  | some ft => overwrite (sel ft) old
  | none => old

/-- applyEntitiesToFilters of nlp.ts: a copy of the current filters with
each present entity category folded in, field by field. -/
def applyEntitiesToFilters (entities : Entities) (currentFilters : CarFilters) : CarFilters :=
  { currentFilters with
    makes := listMerge entities.makes currentFilters.makes,
    vehicleTypes := listMerge entities.vehicleTypes currentFilters.vehicleTypes,
    conditions := listMerge entities.conditions currentFilters.conditions,
    fuelTypes := listMerge entities.fuelTypes currentFilters.fuelTypes,
    transmissions := listMerge entities.transmissions currentFilters.transmissions,
    driveTypes := listMerge entities.driveTypes currentFilters.driveTypes,
    exteriorColors := listMerge entities.colors currentFilters.exteriorColors,
    sunroof := featMerge entities.features (fun f => f.sunroof) currentFilters.sunroof,
    trailerCoupling := featMerge entities.features (fun f => f.trailerCoupling) currentFilters.trailerCoupling,
    heatedSeats := featMerge entities.features (fun f => f.heatedSeats) currentFilters.heatedSeats,
    navigationSystem := featMerge entities.features (fun f => f.navigationSystem) currentFilters.navigationSystem,
    carPlay := featMerge entities.features (fun f => f.carPlay) currentFilters.carPlay,
    alloyWheels := featMerge entities.features (fun f => f.alloyWheels) currentFilters.alloyWheels,
    ledHeadlights := featMerge entities.features (fun f => f.ledHeadlights) currentFilters.ledHeadlights,
    laneChangeAssist := featMerge entities.features (fun f => f.laneChangeAssist) currentFilters.laneChangeAssist,
    emergencyBrakeAssist := featMerge entities.features (fun f => f.emergencyBrakeAssist) currentFilters.emergencyBrakeAssist,
    priceMin := boundMerge entities.priceRange (fun r => r.min) currentFilters.priceMin,
    priceMax := boundMerge entities.priceRange (fun r => r.max) currentFilters.priceMax,
    yearMin := boundMerge entities.yearRange (fun r => r.min) currentFilters.yearMin,
    yearMax := boundMerge entities.yearRange (fun r => r.max) currentFilters.yearMax,
    mileageMin := boundMerge entities.mileage (fun r => r.min) currentFilters.mileageMin,
    mileageMax := boundMerge entities.mileage (fun r => r.max) currentFilters.mileageMax }

/-! ### The dialogue controller (VoiceSearchAssistant.tsx)

React state updates and callback invocations are modelled as a state
transition returning the new conversation state together with the list of
emitted side effects, in program order (setTimeout-delayed calls last). -/

structure ConversationState where
  currentStep : String
  collectedFilters : CarFilters
deriving DecidableEq

inductive Effect where
  | addMessage (text : String)
  | speak (text : String)
  | filtersUpdate (filters : CarFilters)
  | search
  | closeDialog
  | toast (title description : String)
deriving DecidableEq

/-- JavaScript truthiness of an optional number: `!x` holds for `undefined` and `0`. -/
def falsyNum : Option Nat → Bool
  | none => true
  | some n => n == 0

/-- `!filters.xs || filters.xs.length === 0`. -/
def emptyListField : Option (List String) → Bool
  | none => true
  | some l => l.isEmpty

def questionMake : String :=
  "What car brand would you prefer? For example, BMW, Mercedes, Audi, or Volkswagen?"

def questionBudget : String :=
  "What\x27s your budget range? You can say something like \x27under 30,000 euros\x27 or \x27between 20,000 and 50,000 euros\x27."

def questionBodyType : String :=
  "What type of vehicle interests you? For example, SUV, sedan, coupe, or estate?"

def questionTransmission : String :=
  "Do you prefer automatic or manual transmission?"

def questionAnythingElse : String :=
  "Is there anything else specific you\x27re looking for? Or should I search for cars with your current criteria?"

/-- generateNextQuestion of VoiceSearchAssistant.tsx: the fixed priority
checklist make, budget, body type, transmission, anything-else. -/
def generateNextQuestion (filters : CarFilters) : String :=
  if emptyListField filters.makes then questionMake
  else if falsyNum filters.priceMax && falsyNum filters.priceMin then questionBudget
  else if emptyListField filters.vehicleTypes then questionBodyType
  else if emptyListField filters.transmissions then questionTransmission
  else questionAnythingElse

/-- `Number.prototype.toLocaleString()` with en-US grouping: thousands
separated by commas.  Helper inserting a comma after every third digit of
the reversed digit list. -/
def commaRev : List Char → List Char
  | a :: b :: c :: d :: rest => a :: b :: c :: ',' :: commaRev (d :: rest)
  | l => l

def natToLocaleString (n : Nat) : String :=
  String.mk (commaRev (toString n).toList.reverse).reverse

/-- `Object.keys(entities.features)`, in the insertion order of extractFeatures. -/
def Features.keys (f : Features) : List String :=
  (if f.heatedSeats.isSome then ["heatedSeats"] else []) ++
  (if f.navigationSystem.isSome then ["navigationSystem"] else []) ++
  (if f.sunroof.isSome then ["sunroof"] else []) ++
  (if f.carPlay.isSome then ["carPlay"] else []) ++
  (if f.alloyWheels.isSome then ["alloyWheels"] else []) ++
  (if f.ledHeadlights.isSome then ["ledHeadlights"] else []) ++
  (if f.laneChangeAssist.isSome then ["laneChangeAssist"] else []) ++
  (if f.emergencyBrakeAssist.isSome then ["emergencyBrakeAssist"] else []) ++
  (if f.trailerCoupling.isSome then ["trailerCoupling"] else [])

/-- The featureMap of generateConfirmationText; unmapped keys fall back to
the raw key. -/
def featureDisplayName (k : String) : String :=
  if k == "heatedSeats" then "heated seats"
  else if k == "navigationSystem" then "navigation system"
  else if k == "sunroof" then "sunroof"
  else if k == "carPlay" then "Apple CarPlay"
  else if k == "alloyWheels" then "alloy wheels"
  else if k == "ledHeadlights" then "LED headlights"
  else k

/-- generateConfirmationText of VoiceSearchAssistant.tsx (its originalText
argument is unused by the source body).  Note the truthiness tests: a price
bound of 0 is skipped, and a present-but-empty category still pushes its
phrase. -/
def generateConfirmationText (entities : Entities) : String :=
  let confirmations : List String :=
    (match entities.makes with
     | some ms => [String.intercalate " or " ms ++ " vehicles"]
     | none => []) ++
    (match entities.vehicleTypes with
     | some vs => [String.intercalate " or " vs ++ " body type"]
     | none => []) ++
    (match entities.conditions with
     | some cs => [String.intercalate " or " cs ++ " condition"]
     | none => []) ++
    (match entities.fuelTypes with
     | some fs => [String.intercalate " or " fs ++ " fuel type"]
     | none => []) ++
    (match entities.transmissions with
     | some ts => [String.intercalate " or " ts ++ " transmission"]
     | none => []) ++
    (match entities.priceRange with
     | some r =>
       (match r.max with
        | some m => if m == 0 then [] else ["under €" ++ natToLocaleString m]
        | none => []) ++
       (match r.min with
        | some m => if m == 0 then [] else ["over €" ++ natToLocaleString m]
        | none => [])
     | none => []) ++
    (match entities.features with
     | some ft => ["with " ++ String.intercalate ", " ((Features.keys ft).map featureDisplayName)]
     | none => [])
  if confirmations.isEmpty then
    "I understand you\x27re looking for a car. Could you be more specific about what you want?"
  else
    "Got it! Looking for " ++ String.intercalate ", " confirmations ++ "."

def confirmationResponse : String :=
  "Perfect! Let me search for cars matching your criteria."

def denialResponse : String :=
  "No problem! Please tell me what you\x27d like to change or search for instead."

def resetResponse : String :=
  "All filters cleared! Let\x27s start fresh. What kind of car are you looking for?"

def unknownResponse : String :=
  "I didn\x27t quite understand that. Could you try rephrasing? For example, you could say \x27I want a BMW SUV under 50,000 euros\x27 or \x27Show me electric cars with heated seats.\x27"

/-- handleFilterSpecification: merge into the collected filters, publish
them, echo a confirmation, then (after the fixed delay) the next question. -/
def handleFilterSpecification (entities : Entities) (state : ConversationState) :
    ConversationState × List Effect :=
  let updatedFilters := applyEntitiesToFilters entities state.collectedFilters
  let confirmationText := generateConfirmationText entities
  let nextQuestion := generateNextQuestion updatedFilters
  ({ state with collectedFilters := updatedFilters },
   [Effect.filtersUpdate updatedFilters, Effect.addMessage confirmationText,
    Effect.speak confirmationText, Effect.addMessage nextQuestion, Effect.speak nextQuestion])

/-- handleConfirmation: speak the acknowledgement, then (after the delay)
trigger the external search, close the dialog and show the toast.  The
conversation state is not touched. -/
def handleConfirmation (state : ConversationState) : ConversationState × List Effect :=
  (state,
   [Effect.addMessage confirmationResponse, Effect.speak confirmationResponse,
    Effect.search, Effect.closeDialog,
    Effect.toast "Search Complete" "Found cars matching your voice search criteria!"])

def handleDenial (state : ConversationState) : ConversationState × List Effect :=
  (state, [Effect.addMessage denialResponse, Effect.speak denialResponse])

/-- handleReset: clear the collected filters, re-enter collecting_preferences
and publish the empty filters. -/
def handleReset (_state : ConversationState) : ConversationState × List Effect :=
  ({ currentStep := "collecting_preferences", collectedFilters := {} },
   [Effect.filtersUpdate {}, Effect.addMessage resetResponse, Effect.speak resetResponse])

def handleUnknownCommand (state : ConversationState) : ConversationState × List Effect :=
  (state, [Effect.addMessage unknownResponse, Effect.speak unknownResponse])

/-- processVoiceCommand of VoiceSearchAssistant.tsx: dispatch on the parsed
intent (search_cars and specify_filters share the filter branch; compare,
details and unknown all fall to the default branch). -/
def processVoiceCommand (command : VoiceCommand) (state : ConversationState) :
    ConversationState × List Effect :=
  if command.intent == "search_cars" || command.intent == "specify_filters" then
    handleFilterSpecification command.entities state
  else if command.intent == "confirm" then handleConfirmation state
  else if command.intent == "deny" then handleDenial state
  else if command.intent == "reset_filters" then handleReset state
  else handleUnknownCommand state

/-! ### Concrete inputs and auxiliary predicates used by the claims -/

def c1Utterance : List Char :=
  strToChars "I need a used BMW SUV under 40000 euros with heated seats"

/-- The filter state after reconciling turn 1 of the end-to-end scenario
into the empty state. -/
def c1Filters : CarFilters :=
  applyEntitiesToFilters (parseVoiceCommand c1Utterance).entities {}

def c2YesShow : List Char := strToChars "yes, show me BMWs"

def c2FindYes : List Char := strToChars "find a BMW and yes i\x27m sure"

def c3State : ConversationState :=
  { currentStep := "collecting_preferences", collectedFilters := {} }

def c3Command : VoiceCommand := parseVoiceCommand (strToChars "yes")

def c5Entities : Entities := (parseVoiceCommand (strToChars "under 40000")).entities

def c6Entities : Entities := { makes := some ["BMW"] }

def c7Entities : Entities :=
  { features := some { heatedSeats := some true },
    priceRange := some { max := some 30000 },
    yearRange := some { min := some 2015 },
    mileage := some { max := some 90000 } }

def c7Filters : CarFilters :=
  { makes := some ["Audi"], priceMin := some 10000, sunroof := some false }

def c8Entities : Entities :=
  { makes := some ["BMW"], conditions := some ["used"],
    priceRange := some { max := some 30000 } }

def c8Text : List Char := strToChars "find me one"

/-- No lexicon keyword, no numeric pattern and no intent keyword matches the
normalized utterance: the hypothesis of the graceful-degradation claim. -/
def tableAllAbsent (t : List Char) (table : List (String × String)) : Bool :=
  table.all fun kv => !(includesSub t (strToChars kv.1))

def NoMatchInput (t : List Char) : Prop :=
  let n := trimL (lowerList t)
  tableAllAbsent n makesTable = true ∧ tableAllAbsent n vehicleTypesTable = true ∧
  tableAllAbsent n conditionsTable = true ∧ tableAllAbsent n fuelTypesTable = true ∧
  tableAllAbsent n transmissionsTable = true ∧ tableAllAbsent n driveTypesTable = true ∧
  tableAllAbsent n featuresTable = true ∧ tableAllAbsent n colorsTable = true ∧
  firstPriceMatch n = none ∧ firstYearMatch n = none ∧ firstMileageMatch n = none ∧
  hasSearchKeyword n = false ∧ hasCompareKeyword n = false ∧ hasDetailKeyword n = false ∧
  hasResetKeyword n = false ∧ hasConfirmKeyword n = false ∧ hasDenyKeyword n = false

instance (t : List Char) : Decidable (NoMatchInput t) := by
  unfold NoMatchInput
  infer_instance

def c10Entities : Entities :=
  { vehicleTypes := some ["suv"], priceRange := some { max := some 25000 } }

def c10Filters : CarFilters :=
  { makes := some ["BMW"], models := some ["M3"], priceMin := some 5000 }

/-! ## Shared lemmas -/

theorem overwrite_idem {α : Type} (a b : Option α) :
    overwrite a (overwrite a b) = overwrite a b := by
  cases a <;> rfl

theorem boundMerge_idem (r : Option NumRange) (sel : NumRange → Option Nat) (x : Option Nat) :
    boundMerge r sel (boundMerge r sel x) = boundMerge r sel x := by
  cases r <;> simp [boundMerge, overwrite_idem]

theorem featMerge_idem (ft : Option Features) (sel : Features → Option Bool) (x : Option Bool) :
    featMerge ft sel (featMerge ft sel x) = featMerge ft sel x := by
  cases ft <;> simp [featMerge, overwrite_idem]

/-! ## Claim theorems -/

/-- Claim C1, counterexample: on turn 1 of the end-to-end scenario the
reconciled filter state is not exactly the five-field record of the claim,
because the code additionally sets yearMin = 4000 (the bare four-digit year
pattern matches inside "40000") and mileageMax = 40000 (the mileage
"under" pattern has an optional unit suffix). -/
theorem c1_counterexample :
    c1Filters ≠
      { makes := some ["BMW"], vehicleTypes := some ["suv"], conditions := some ["used"],
        priceMax := some 40000, heatedSeats := some true } ∧
    c1Filters.yearMin = some 4000 ∧ c1Filters.mileageMax = some 40000 := by
  refine ⟨by decide, rfl, rfl⟩

/-- Claim C1 (amended): parse + reconcile of turn 1 from the empty state
yields makes ["BMW"], vehicleTypes ["suv"], conditions ["used"],
priceMax 40000, heatedSeats true, and additionally yearMin 4000 and
mileageMax 40000 from the overlapping numeric extractors; the next
clarifying question computed from that state asks about transmission. -/
theorem c1_end_to_end :
    c1Filters =
      { makes := some ["BMW"], vehicleTypes := some ["suv"], conditions := some ["used"],
        priceMax := some 40000, heatedSeats := some true,
        yearMin := some 4000, mileageMax := some 40000 } ∧
    generateNextQuestion c1Filters = questionTransmission :=
  ⟨by decide, by decide⟩

/-- Claim C2, counterexample: parse("yes, show me BMWs") does not return
intent "confirm": the utterance contains the search keyword "show", and the
search check has the highest priority, so the intent is "search_cars". -/
theorem c2_counterexample :
    (parseVoiceCommand c2YesShow).intent = "search_cars" ∧
    (parseVoiceCommand c2YesShow).intent ≠ "confirm" :=
  ⟨by decide, by decide⟩

/-- Claim C2 (amended): intent classification follows the fixed priority
order search_cars > compare_cars > car_details > reset_filters > confirm >
deny > specify_filters (if any entity extracted) > unknown; in particular
parse("yes, show me BMWs") returns "search_cars" (the utterance contains
the search keyword "show") and parse("find a BMW and yes i'm sure")
returns "search_cars". -/
theorem c2_intent_priority :
    (∀ (t : List Char) (e : Entities), hasSearchKeyword t = true →
      determineIntent t e = "search_cars") ∧
    (∀ (t : List Char) (e : Entities), hasSearchKeyword t = false →
      hasCompareKeyword t = true → determineIntent t e = "compare_cars") ∧
    (∀ (t : List Char) (e : Entities), hasSearchKeyword t = false →
      hasCompareKeyword t = false → hasDetailKeyword t = true →
      determineIntent t e = "car_details") ∧
    (∀ (t : List Char) (e : Entities), hasSearchKeyword t = false →
      hasCompareKeyword t = false → hasDetailKeyword t = false →
      hasResetKeyword t = true → determineIntent t e = "reset_filters") ∧
    (∀ (t : List Char) (e : Entities), hasSearchKeyword t = false →
      hasCompareKeyword t = false → hasDetailKeyword t = false →
      hasResetKeyword t = false → hasConfirmKeyword t = true →
      determineIntent t e = "confirm") ∧
    (∀ (t : List Char) (e : Entities), hasSearchKeyword t = false →
      hasCompareKeyword t = false → hasDetailKeyword t = false →
      hasResetKeyword t = false → hasConfirmKeyword t = false →
      hasDenyKeyword t = true → determineIntent t e = "deny") ∧
    (∀ (t : List Char) (e : Entities), hasSearchKeyword t = false →
      hasCompareKeyword t = false → hasDetailKeyword t = false →
      hasResetKeyword t = false → hasConfirmKeyword t = false →
      hasDenyKeyword t = false → 0 < entityCount e →
      determineIntent t e = "specify_filters") ∧
    (∀ (t : List Char) (e : Entities), hasSearchKeyword t = false →
      hasCompareKeyword t = false → hasDetailKeyword t = false →
      hasResetKeyword t = false → hasConfirmKeyword t = false →
      hasDenyKeyword t = false → entityCount e = 0 →
      determineIntent t e = "unknown") ∧
    (parseVoiceCommand c2YesShow).intent = "search_cars" ∧
    (parseVoiceCommand c2FindYes).intent = "search_cars" := by
  refine ⟨?_, ?_, ?_, ?_, ?_, ?_, ?_, ?_, by decide, by decide⟩
  · intro t e h1
    simp [determineIntent, h1]
  · intro t e h1 h2
    simp [determineIntent, h1, h2]
  · intro t e h1 h2 h3
    simp [determineIntent, h1, h2, h3]
  · intro t e h1 h2 h3 h4
    simp [determineIntent, h1, h2, h3, h4]
  · intro t e h1 h2 h3 h4 h5
    simp [determineIntent, h1, h2, h3, h4, h5]
  · intro t e h1 h2 h3 h4 h5 h6
    simp [determineIntent, h1, h2, h3, h4, h5, h6]
  · intro t e h1 h2 h3 h4 h5 h6 h7
    simp [determineIntent, h1, h2, h3, h4, h5, h6, h7]
  · intro t e h1 h2 h3 h4 h5 h6 h7
    simp [determineIntent, h1, h2, h3, h4, h5, h6, h7]

/-- Witness for C2: the confirm component applied to the utterance "yes"
with no entities. -/
theorem c2_intent_priority_witness :
    determineIntent (strToChars "yes") {} = "confirm" :=
  c2_intent_priority.2.2.2.2.1 (strToChars "yes") {}
    (by decide) (by decide) (by decide) (by decide) (by decide)

/-- Claim C3, counterexample: the utterance "yes" is classified "confirm",
and processing it signals the external search trigger, but the session's
currentStep stays "collecting_preferences" — it is never set to "done". -/
theorem c3_counterexample :
    c3Command.intent = "confirm" ∧
    (processVoiceCommand c3Command c3State).1.currentStep ≠ "done" ∧
    Effect.search ∈ (processVoiceCommand c3Command c3State).2 :=
  ⟨by decide, by decide, by decide⟩

/-- Claim C3 (amended): on an utterance classified "confirm" the controller
speaks an acknowledgement and, after the delay, signals the external search
trigger and closes the dialog; the conversation state (currentStep
included) is left unchanged, so the "done" step is never entered and the
session ends by the dialog closing. -/
theorem c3_confirm_behavior (command : VoiceCommand) (state : ConversationState)
    (h : command.intent = "confirm") :
    processVoiceCommand command state =
      (state,
       [Effect.addMessage confirmationResponse, Effect.speak confirmationResponse,
        Effect.search, Effect.closeDialog,
        Effect.toast "Search Complete" "Found cars matching your voice search criteria!"]) := by
  unfold processVoiceCommand
  rw [h]
  rfl

/-- Witness for C3: the confirm behavior at the concrete "yes" command. -/
theorem c3_confirm_behavior_witness :
    processVoiceCommand c3Command c3State =
      (c3State,
       [Effect.addMessage confirmationResponse, Effect.speak confirmationResponse,
        Effect.search, Effect.closeDialog,
        Effect.toast "Search Complete" "Found cars matching your voice search criteria!"]) :=
  c3_confirm_behavior c3Command c3State (by decide)

/-- Claim C4: directional defaults are asymmetric per domain — "under
30000" and the bare "30000" both yield priceRange {max: 30000}, while the
bare "2020" yields yearRange {min: 2020}. -/
theorem c4_bare_number_defaults :
    (parseVoiceCommand (strToChars "under 30000")).entities.priceRange =
      some { max := some 30000 } ∧
    (parseVoiceCommand (strToChars "30000")).entities.priceRange =
      some { max := some 30000 } ∧
    (parseVoiceCommand (strToChars "2020")).entities.yearRange =
      some { min := some 2020 } :=
  ⟨by decide, by decide, by decide⟩

/-- Claim C5: the numeric extractors interact — parse("under 40000") sets
priceRange {max: 40000}, mileage {max: 40000} (the unit suffix of the
mileage "under" pattern is optional) and yearRange {min: 4000} (the bare
year pattern matches the first four digits of "40000"). -/
theorem c5_extractor_crosstalk :
    c5Entities.priceRange = some { max := some 40000 } ∧
    c5Entities.mileage = some { max := some 40000 } ∧
    c5Entities.yearRange = some { min := some 4000 } :=
  ⟨by decide, by decide, by decide⟩

/-- Claim C6: list accumulation at merge time does not deduplicate —
merging makes ["BMW"] twice into the empty state yields the two-element
array ["BMW", "BMW"]. -/
theorem c6_no_merge_dedup :
    (applyEntitiesToFilters c6Entities (applyEntitiesToFilters c6Entities {})).makes =
      some ["BMW", "BMW"] := by
  decide

/-- Claim C7: reconcile is idempotent for entity bags that carry only the
scalar-range categories (priceRange, yearRange, mileage) and boolean
feature flags — every list category is absent. -/
theorem c7_scalar_idempotent (e : Entities) (F : CarFilters)
    (hm : e.makes = none) (hv : e.vehicleTypes = none) (hc : e.conditions = none)
    (hf : e.fuelTypes = none) (ht : e.transmissions = none) (hd : e.driveTypes = none)
    (hcol : e.colors = none) :
    applyEntitiesToFilters e (applyEntitiesToFilters e F) = applyEntitiesToFilters e F := by
  apply CarFilters.ext <;>
    simp [applyEntitiesToFilters, hm, hv, hc, hf, ht, hd, hcol, listMerge,
      boundMerge_idem, featMerge_idem]

/-- Witness for C7: idempotence at a concrete scalar-and-feature entity bag
over a concrete filter state. -/
theorem c7_scalar_idempotent_witness :
    applyEntitiesToFilters c7Entities (applyEntitiesToFilters c7Entities c7Filters) =
      applyEntitiesToFilters c7Entities c7Filters :=
  c7_scalar_idempotent c7Entities c7Filters rfl rfl rfl rfl rfl rfl rfl

theorem boosterBonus_nonneg (ks : List String) (t : List Char) : 0 ≤ boosterBonus ks t := by
  induction ks with
  | nil => simp [boosterBonus]
  | cons k ks ih =>
    simp only [boosterBonus]
    split
    · norm_num
    · exact ih

theorem boosterBonus_le (ks : List String) (t : List Char) : boosterBonus ks t ≤ 1/5 := by
  induction ks with
  | nil => simp [boosterBonus]
  | cons k ks ih =>
    simp only [boosterBonus]
    split
    · norm_num
    · exact ih

theorem boosterBonus_of_hit (ks : List String) (t : List Char)
    (h : (ks.any fun k => includesSub t (strToChars k)) = true) :
    boosterBonus ks t = 1/5 := by
  induction ks with
  | nil => simp at h
  | cons k ks ih =>
    simp only [List.any_cons, Bool.or_eq_true] at h
    simp only [boosterBonus]
    by_cases h2 : includesSub t (strToChars k) = true
    · rw [if_pos h2]
    · rw [if_neg h2]
      exact ih (h.resolve_left h2)

theorem calculateConfidence_bounds (e : Entities) (t : List Char) :
    0 ≤ calculateConfidence e t ∧ calculateConfidence e t ≤ 1 := by
  unfold calculateConfidence
  constructor
  · apply le_min
    · have h1 := boosterBonus_nonneg confidenceKeywords (lowerList t)
      have h2 : (0 : ℚ) ≤ (entityCount e : ℚ) * (1/10) := by positivity
      linarith
    · norm_num
  · exact min_le_right _ _

/-- Claim C8: the confidence of any parse lies in [0, 1]; with exactly 3
recognized entity categories a booster phrase makes the score strictly
higher than the same count scored without the bonus; and the booster bonus
never exceeds the single 0.2 (= 1/5) increment however many booster
phrases occur. -/
theorem c8_confidence :
    (∀ t : List Char,
      0 ≤ (parseVoiceCommand t).confidence ∧ (parseVoiceCommand t).confidence ≤ 1) ∧
    (∀ (e : Entities) (t : List Char), entityCount e = 3 →
      (confidenceKeywords.any fun k => includesSub (lowerList t) (strToChars k)) = true →
      min ((1 : ℚ)/2 + (entityCount e : ℚ) * (1/10)) 1 < calculateConfidence e t) ∧
    (∀ (ks : List String) (t : List Char), boosterBonus ks t ≤ 1/5) := by
  refine ⟨?_, ?_, boosterBonus_le⟩
  · intro t
    have h : (parseVoiceCommand t).confidence =
        calculateConfidence ((parseVoiceCommand t).entities) (trimL (lowerList t)) := rfl
    rw [h]
    exact calculateConfidence_bounds _ _
  · intro e t h3 hb
    unfold calculateConfidence
    rw [boosterBonus_of_hit _ _ hb, h3]
    norm_num [min_def]

/-- Witness for C8: three categories plus the booster phrase "find" score
strictly above the three-category baseline. -/
theorem c8_confidence_witness :
    min ((1 : ℚ)/2 + (entityCount c8Entities : ℚ) * (1/10)) 1 <
      calculateConfidence c8Entities c8Text :=
  c8_confidence.2.1 c8Entities c8Text (by decide) (by decide)

theorem extractKeywords_eq_nil (t : List Char) (table : List (String × String))
    (h : tableAllAbsent t table = true) : extractKeywords t table = [] := by
  unfold extractKeywords
  have hfil : table.filter (fun kv => includesSub t (strToChars kv.1)) = [] := by
    rw [List.filter_eq_nil_iff]
    intro kv hkv
    have h2 := List.all_eq_true.mp h kv hkv
    simp only [Bool.not_eq_true'] at h2
    simp [h2]
  rw [hfil]
  rfl

theorem featMatch_false (t : List Char) (h : tableAllAbsent t featuresTable = true)
    (key : String) : featMatch t key = false := by
  unfold featMatch
  rw [List.any_eq_false]
  intro kv hkv
  have h2 := List.all_eq_true.mp h kv (List.mem_filter.mp hkv).1
  simp only [Bool.not_eq_true'] at h2
  simp [h2]

theorem extractFeatures_empty (t : List Char) (h : tableAllAbsent t featuresTable = true) :
    extractFeatures t = {} := by
  unfold extractFeatures
  simp [featMatch_false t h]

/-- Claim C9: parse is total by construction (it is a Lean function), and
on an utterance where no lexicon keyword, no numeric pattern and no intent
keyword matches it returns the empty entities bag and intent "unknown"
rather than failing. -/
theorem c9_no_match_unknown (t : List Char) (h : NoMatchInput t) :
    (parseVoiceCommand t).intent = "unknown" ∧ (parseVoiceCommand t).entities = {} := by
  obtain ⟨h1, h2, h3, h4, h5, h6, h7, h8, hp, hy, hmi, hs, hcmp, hdet, hres, hcf, hdny⟩ := h
  have e1 := extractKeywords_eq_nil _ _ h1
  have e2 := extractKeywords_eq_nil _ _ h2
  have e3 := extractKeywords_eq_nil _ _ h3
  have e4 := extractKeywords_eq_nil _ _ h4
  have e5 := extractKeywords_eq_nil _ _ h5
  have e6 := extractKeywords_eq_nil _ _ h6
  have e8 := extractKeywords_eq_nil _ _ h8
  have ef := extractFeatures_empty _ h7
  have ep : extractPriceRange (trimL (lowerList t)) = none := by
    unfold extractPriceRange
    rw [hp]
  have ey : extractYearRange (trimL (lowerList t)) = none := by
    unfold extractYearRange
    rw [hy]
  have em : extractMileage (trimL (lowerList t)) = none := by
    unfold extractMileage
    rw [hmi]
  have hent : (parseVoiceCommand t).entities = {} := by
    simp only [parseVoiceCommand]
    simp [e1, e2, e3, e4, e5, e6, e8, ef, ep, ey, em, Features.isEmpty]
  refine ⟨?_, hent⟩
  have hint : (parseVoiceCommand t).intent =
      determineIntent (trimL (lowerList t)) ((parseVoiceCommand t).entities) := rfl
  rw [hint, hent]
  simp [determineIntent, hs, hcmp, hdet, hres, hcf, hdny, entityCount]

/-- Witness for C9: the utterance "zzz" matches nothing and parses to
intent "unknown" with no entities. -/
theorem c9_no_match_unknown_witness :
    NoMatchInput (strToChars "zzz") ∧
    ((parseVoiceCommand (strToChars "zzz")).intent = "unknown" ∧
     (parseVoiceCommand (strToChars "zzz")).entities = {}) :=
  ⟨by decide, c9_no_match_unknown _ (by decide)⟩

/-- Claim C10: reconcile is pure — it returns a new state computed from its
arguments — and leaves every filter field of a category absent from the
entities bag unchanged, including the untouched bound of a partially
supplied numeric range, fields it never writes (models), and, for the empty
entities bag, the whole state. -/
theorem c10_reconcile_frame (e : Entities) (F : CarFilters) :
    (e.makes = none → (applyEntitiesToFilters e F).makes = F.makes) ∧
    (e.vehicleTypes = none → (applyEntitiesToFilters e F).vehicleTypes = F.vehicleTypes) ∧
    (e.conditions = none → (applyEntitiesToFilters e F).conditions = F.conditions) ∧
    (e.fuelTypes = none → (applyEntitiesToFilters e F).fuelTypes = F.fuelTypes) ∧
    (e.transmissions = none → (applyEntitiesToFilters e F).transmissions = F.transmissions) ∧
    (e.driveTypes = none → (applyEntitiesToFilters e F).driveTypes = F.driveTypes) ∧
    (e.colors = none → (applyEntitiesToFilters e F).exteriorColors = F.exteriorColors) ∧
    (e.features = none →
      (applyEntitiesToFilters e F).sunroof = F.sunroof ∧
      (applyEntitiesToFilters e F).trailerCoupling = F.trailerCoupling ∧
      (applyEntitiesToFilters e F).heatedSeats = F.heatedSeats ∧
      (applyEntitiesToFilters e F).navigationSystem = F.navigationSystem ∧
      (applyEntitiesToFilters e F).carPlay = F.carPlay ∧
      (applyEntitiesToFilters e F).alloyWheels = F.alloyWheels ∧
      (applyEntitiesToFilters e F).ledHeadlights = F.ledHeadlights ∧
      (applyEntitiesToFilters e F).laneChangeAssist = F.laneChangeAssist ∧
      (applyEntitiesToFilters e F).emergencyBrakeAssist = F.emergencyBrakeAssist) ∧
    (e.priceRange = none →
      (applyEntitiesToFilters e F).priceMin = F.priceMin ∧
      (applyEntitiesToFilters e F).priceMax = F.priceMax) ∧
    (∀ r, e.priceRange = some r → r.min = none →
      (applyEntitiesToFilters e F).priceMin = F.priceMin) ∧
    (∀ r, e.priceRange = some r → r.max = none →
      (applyEntitiesToFilters e F).priceMax = F.priceMax) ∧
    (e.yearRange = none →
      (applyEntitiesToFilters e F).yearMin = F.yearMin ∧
      (applyEntitiesToFilters e F).yearMax = F.yearMax) ∧
    (∀ r, e.yearRange = some r → r.min = none →
      (applyEntitiesToFilters e F).yearMin = F.yearMin) ∧
    (∀ r, e.yearRange = some r → r.max = none →
      (applyEntitiesToFilters e F).yearMax = F.yearMax) ∧
    (e.mileage = none →
      (applyEntitiesToFilters e F).mileageMin = F.mileageMin ∧
      (applyEntitiesToFilters e F).mileageMax = F.mileageMax) ∧
    (∀ r, e.mileage = some r → r.min = none →
      (applyEntitiesToFilters e F).mileageMin = F.mileageMin) ∧
    (∀ r, e.mileage = some r → r.max = none →
      (applyEntitiesToFilters e F).mileageMax = F.mileageMax) ∧
    (applyEntitiesToFilters e F).models = F.models ∧
    applyEntitiesToFilters {} F = F := by
  refine ⟨?_, ?_, ?_, ?_, ?_, ?_, ?_, ?_, ?_, ?_, ?_, ?_, ?_, ?_, ?_, ?_, ?_, rfl, ?_⟩
  · intro h
    simp [applyEntitiesToFilters, h, listMerge]
  · intro h
    simp [applyEntitiesToFilters, h, listMerge]
  · intro h
    simp [applyEntitiesToFilters, h, listMerge]
  · intro h
    simp [applyEntitiesToFilters, h, listMerge]
  · intro h
    simp [applyEntitiesToFilters, h, listMerge]
  · intro h
    simp [applyEntitiesToFilters, h, listMerge]
  · intro h
    simp [applyEntitiesToFilters, h, listMerge]
  · intro h
    refine ⟨?_, ?_, ?_, ?_, ?_, ?_, ?_, ?_, ?_⟩ <;>
      simp [applyEntitiesToFilters, h, featMerge]
  · intro h
    refine ⟨?_, ?_⟩ <;> simp [applyEntitiesToFilters, h, boundMerge]
  · intro r hr hn
    simp [applyEntitiesToFilters, hr, hn, boundMerge, overwrite]
  · intro r hr hn
    simp [applyEntitiesToFilters, hr, hn, boundMerge, overwrite]
  · intro h
    refine ⟨?_, ?_⟩ <;> simp [applyEntitiesToFilters, h, boundMerge]
  · intro r hr hn
    simp [applyEntitiesToFilters, hr, hn, boundMerge, overwrite]
  · intro r hr hn
    simp [applyEntitiesToFilters, hr, hn, boundMerge, overwrite]
  · intro h
    refine ⟨?_, ?_⟩ <;> simp [applyEntitiesToFilters, h, boundMerge]
  · intro r hr hn
    simp [applyEntitiesToFilters, hr, hn, boundMerge, overwrite]
  · intro r hr hn
    simp [applyEntitiesToFilters, hr, hn, boundMerge, overwrite]
  · apply CarFilters.ext <;> rfl

/-- Witness for C10: a merge that supplies vehicleTypes and a price maximum
leaves makes and the price minimum of the current state unchanged. -/
theorem c10_reconcile_frame_witness :
    (applyEntitiesToFilters c10Entities c10Filters).makes = c10Filters.makes ∧
    (applyEntitiesToFilters c10Entities c10Filters).priceMin = c10Filters.priceMin :=
  ⟨(c10_reconcile_frame c10Entities c10Filters).1 rfl,
   (c10_reconcile_frame c10Entities c10Filters).2.2.2.2.2.2.2.2.2.1
     { min := none, max := some 25000 } rfl rfl⟩

end CarVoice
